import Mathlib

/-!
Shallow embedding of the record-ingestion pipeline of `SSP_FINALE.py`
(lines 15-87): header normalization, required-column check, null coercion,
coordinate parsing, category normalization, row filtering, projection, and
the skipped-rows diagnostic.  Cells are modelled as text: `pd.read_csv`
followed by `df.fillna("")` (lines 56-60) leaves every absent cell as the
empty string, and the only later type change is `pd.to_numeric` on the two
coordinate columns.  Tables are modelled with duplicate-free normalized
headers: `read_csv` mangles duplicate raw headers, and a header whose names
collide only after normalization makes the script raise inside pandas,
outside the behaviour the spec describes.
-/

namespace SSP

/-- Whitespace predicate of the model of Python `str.strip` (the ASCII
whitespace characters Python strips). -/
def isSpace (c : Char) : Bool :=
  c = ' ' || c = '\t' || c = '\n' || c = '\r' || c = '\x0b' || c = '\x0c'

/-- Model of Python `str.upper` on one character, for the basic latin
alphabet appearing in the data (other characters are unchanged). -/
def upChar (c : Char) : Char :=
  match c with
  | 'a' => 'A' | 'b' => 'B' | 'c' => 'C' | 'd' => 'D' | 'e' => 'E'
  | 'f' => 'F' | 'g' => 'G' | 'h' => 'H' | 'i' => 'I' | 'j' => 'J'
  | 'k' => 'K' | 'l' => 'L' | 'm' => 'M' | 'n' => 'N' | 'o' => 'O'
  | 'p' => 'P' | 'q' => 'Q' | 'r' => 'R' | 's' => 'S' | 't' => 'T'
  | 'u' => 'U' | 'v' => 'V' | 'w' => 'W' | 'x' => 'X' | 'y' => 'Y'
  | 'z' => 'Z'
  | other => other

/-- Model of Python `str.lower` on one character, for the basic latin
alphabet appearing in the data (other characters are unchanged). -/
def lowChar (c : Char) : Char :=
  match c with
  | 'A' => 'a' | 'B' => 'b' | 'C' => 'c' | 'D' => 'd' | 'E' => 'e'
  | 'F' => 'f' | 'G' => 'g' | 'H' => 'h' | 'I' => 'i' | 'J' => 'j'
  | 'K' => 'k' | 'L' => 'l' | 'M' => 'm' | 'N' => 'n' | 'O' => 'o'
  | 'P' => 'p' | 'Q' => 'q' | 'R' => 'r' | 'S' => 's' | 'T' => 't'
  | 'U' => 'u' | 'V' => 'v' | 'W' => 'w' | 'X' => 'x' | 'Y' => 'y'
  | 'Z' => 'z'
  | other => other

/-- Model of Python `str.strip` on a character list: remove leading and
trailing whitespace. -/
def stripList (l : List Char) : List Char :=
  (l.dropWhile isSpace).rdropWhile isSpace

/-- Model of Python `str.strip`. -/
def pyStrip (s : String) : String :=
  ⟨stripList s.data⟩

/-- Model of Python `str.upper`. -/
def pyUpper (s : String) : String :=
  ⟨s.data.map upChar⟩

/-- Model of Python `str.lower`. -/
def pyLower (s : String) : String :=
  ⟨s.data.map lowChar⟩

/-- Header normalization, `df.columns.str.strip().str.lower()`
(line 57 of `SSP_FINALE.py`). -/
def normCol (s : String) : String :=
  pyLower (pyStrip s)

/-- Category normalization, `.astype(str).str.strip().str.upper()`
(line 73 of `SSP_FINALE.py`); cells are already text in this model, so
`astype(str)` is the identity. -/
def normCategory (s : String) : String :=
  pyUpper (pyStrip s)

/-- The fixed required-column list, `REQUIRED_COLUMNS`
(lines 15-31 of `SSP_FINALE.py`). -/
def REQUIRED_COLUMNS : List String :=
  ["display name",
   "name_te",
   "name_hi",
   "name_ta",
   "name_kn",
   "name_ml",
   "description_en",
   "description_te",
   "description_hi",
   "description_ta",
   "description_kn",
   "description_ml",
   "category",
   "latitude",
   "longitude"]

/-- Numeral value of a list of decimal digits. -/
def digitsVal (l : List Char) : Nat :=
  l.foldl (fun a c => 10 * a + (c.toNat - 48)) 0

/-- A parsed coordinate value `mantissa * 10 ^ exponent`.  The pipeline
never computes with or compares coordinate values — it only needs to know
that a cell parsed as a number — so this exact decimal pair stands in for
the IEEE float `pd.to_numeric` produces.  Its rational value is
`Decimal.toRat`. -/
structure Decimal where
  mantissa : Int
  exponent : Int
deriving DecidableEq

/-- The rational value of a parsed decimal. -/
def Decimal.toRat (d : Decimal) : ℚ :=
  match d.exponent with
  | Int.ofNat n => (d.mantissa : ℚ) * (10 : ℚ) ^ n
  | Int.negSucc n => (d.mantissa : ℚ) / (10 : ℚ) ^ (n + 1)

/-- Leading sign of a numeral: `(isNegative, rest)`. -/
def splitSign : List Char → Bool × List Char
  | '+' :: r => (false, r)
  | '-' :: r => (true, r)
  | r => (false, r)

/-- Exponent written after the letter `e`/`E`: an optional sign followed by
at least one digit, consuming the whole rest of the numeral. -/
def parseExpPart (cs : List Char) : Option Int :=
  let sr := splitSign cs
  if sr.2.isEmpty then none
  else if sr.2.all Char.isDigit then
    some (if sr.1 then -(digitsVal sr.2 : Int) else (digitsVal sr.2 : Int))
  else none

/-- Model of `pd.to_numeric(errors="coerce")` on one text cell
(lines 69-70 of `SSP_FINALE.py`): Python float syntax for finite decimal
numerals — surrounding whitespace, an optional sign, digits with an
optional decimal point (at least one digit overall) and an optional
exponent.  `none` covers both a parse failure and an empty cell; a textual
`nan` is also mapped to `none`, since `to_numeric` turns it into the same
missing-value marker that `dropna` later removes.  (Infinite values, which
`float` also accepts, are not representable here and are likewise `none`;
no claim depends on them.) -/
def parseNum (s : String) : Option Decimal :=
  let sr := splitSign (stripList s.data)
  let neg := sr.1
  let cs := sr.2
  let ip := cs.takeWhile Char.isDigit
  let r1 := cs.dropWhile Char.isDigit
  let fr : List Char × List Char :=
    match r1 with
    | '.' :: r => (r.takeWhile Char.isDigit, r.dropWhile Char.isDigit)
    | _ => ([], r1)
  let fp := fr.1
  if ip.isEmpty && fp.isEmpty then none
  else
    let mant : Int :=
      if neg then -(digitsVal (ip ++ fp) : Int) else (digitsVal (ip ++ fp) : Int)
    match fr.2 with
    | [] => some ⟨mant, -(fp.length : Int)⟩
    | 'e' :: r => (parseExpPart r).map (fun e => ⟨mant, e - (fp.length : Int)⟩)
    | 'E' :: r => (parseExpPart r).map (fun e => ⟨mant, e - (fp.length : Int)⟩)
    | _ => none

/-- An input table: the raw header row and the data rows, every cell a
string (an absent cell is the empty string, the combined effect of
`read_csv` and `fillna("")`, lines 56-60). -/
structure Table where
  header : List String
  rows : List (List String)

/-- A field value of an output record: `json.dump` writes either a JSON
string or a JSON number. -/
inductive Field where
  | str (s : String)
  | num (d : Decimal)
deriving DecidableEq

/-- Whether a field value is a string. -/
def Field.isStr : Field → Bool
  | .str _ => true
  | .num _ => false

/-- One output record: an ordered key/value list, as produced by
`df.to_dict(orient="records")` and serialized by `json.dump`. -/
abbrev Record := List (String × Field)

/-- The data produced by a successful run: the record list written to
`locations.json` and the skipped-row count (lines 76-87). -/
structure PipelineOutput where
  locations : List Record
  skipped : Nat
deriving DecidableEq

/-- Result of a run: `fatal` models the uncaught `ValueError` of line 66
(the script aborts before any output file is opened, lines 93 onward),
`ok` models reaching the output-writing phase. -/
inductive RunResult where
  | fatal (msg : String)
  | ok (out : PipelineOutput)
deriving DecidableEq

/-- The normalized header of a table (line 57). -/
def hdrN (t : Table) : List String :=
  t.header.map normCol

/-- Cell lookup by (normalized) column name; a missing cell reads as the
empty string, the post-`fillna("")` state. -/
def cellAt (hdr : List String) (row : List String) (c : String) : String :=
  match hdr.findIdx? (fun h => h == c) with
  | some i => row.getD i ""
  | none => ""

/-- The first required column absent from the header, if any — the check
loop of lines 64-66 raises at the first missing one. -/
def missingColumn (hdr : List String) : Option String :=
  REQUIRED_COLUMNS.find? (fun c => !(hdr.contains c))

/-- Whether a row survives `dropna(subset=["latitude", "longitude"])`
(line 77): both coordinates parsed as numbers. -/
def rowValid (hdr : List String) (row : List String) : Bool :=
  (parseNum (cellAt hdr row "latitude")).isSome &&
    (parseNum (cellAt hdr row "longitude")).isSome

/-- The output record of a surviving row: projection to the required
columns in their fixed order (line 84), with the coordinate columns
numeric (lines 69-70) and the category normalized (line 73).  The `getD 0`
default is never reached on rows kept by `rowValid`. -/
def mkRecord (hdr : List String) (row : List String) : Record :=
  REQUIRED_COLUMNS.map (fun c =>
    (c,
      if c = "latitude" ∨ c = "longitude" then
        Field.num ((parseNum (cellAt hdr row c)).getD ⟨0, 0⟩)
      else if c = "category" then
        Field.str (normCategory (cellAt hdr row c))
      else
        Field.str (cellAt hdr row c)))

/-- The whole ingestion pipeline of lines 56-87: normalize the header,
fail on the first missing required column, otherwise drop the rows with
unparseable coordinates, count them, and project the survivors. -/
def pipeline (t : Table) : RunResult :=
  match missingColumn (hdrN t) with
  | some c => .fatal ("Missing required column: " ++ c)
  | none =>
    let kept := t.rows.filter (rowValid (hdrN t))
    .ok { locations := kept.map (mkRecord (hdrN t)),
          skipped := t.rows.length - kept.length }

/-- The number of input rows whose coordinates fail to parse. -/
def invalidRowCount (t : Table) : Nat :=
  (t.rows.filter (fun r => !(rowValid (hdrN t) r))).length

/-- The diagnostic lines printed after filtering: `if skipped:` on line 80
prints exactly when the count is nonzero (line 81). -/
def skippedMessages (out : PipelineOutput) : List String :=
  if out.skipped ≠ 0 then
    ["⚠️ Skipped " ++ toString out.skipped ++ " invalid rows due to missing coordinates"]
  else []

end SSP

namespace SSP

/-- A well-formed example table: the 15 required columns with assorted
casing and padding, one extra column, one row with parseable coordinates
and one row whose latitude is not numeric. -/
def exHeader : List String :=
  ["Display Name ", "name_te", "name_hi", "name_ta", "name_kn", "name_ml",
   "description_en", "description_te", "description_hi", "description_ta",
   "description_kn", "description_ml", "Category", "LATITUDE", "longitude", "extra"]

/-- Example row with parseable coordinates and a padded category. -/
def exRow1 : List String :=
  ["Temple A", "t1", "", "", "", "", "d1", "", "", "", "", "",
   " temple ", "16.5", "78.25", "zz"]

/-- Example row whose latitude does not parse. -/
def exRow2 : List String :=
  ["B", "", "", "", "", "", "", "", "", "", "", "", "cave", "abc", "78.0", ""]

/-- Example table accepted by the required-column check. -/
def exGood : Table :=
  ⟨exHeader, [exRow1, exRow2]⟩

/-- The record the pipeline produces from `exRow1`. -/
def exRec : Record :=
  [("display name", .str "Temple A"), ("name_te", .str "t1"), ("name_hi", .str ""),
   ("name_ta", .str ""), ("name_kn", .str ""), ("name_ml", .str ""),
   ("description_en", .str "d1"), ("description_te", .str ""), ("description_hi", .str ""),
   ("description_ta", .str ""), ("description_kn", .str ""), ("description_ml", .str ""),
   ("category", .str "TEMPLE"), ("latitude", .num ⟨165, -1⟩), ("longitude", .num ⟨7825, -2⟩)]

/-- The output the pipeline produces on `exGood`: one record (from
`exRow1`), one skipped row (`exRow2`). -/
def exGoodOut : PipelineOutput :=
  ⟨[exRec], 1⟩

/-- Example table whose header lacks `description_ml`. -/
def exBad : Table :=
  ⟨["Display Name ", "name_te", "name_hi", "name_ta", "name_kn", "name_ml",
    "description_en", "description_te", "description_hi", "description_ta",
    "description_kn", "desc_ml", "Category", "LATITUDE", "longitude"],
   [exRow1]⟩

/-- Evaluation of the pipeline on the well-formed example. -/
theorem pipeline_exGood : pipeline exGood = .ok exGoodOut := by decide

/-- A successful run determines the output shape: no required column was
missing, the records are the projections of the rows that pass coordinate
validation, in order, and the skipped count is the number of rows lost. -/
theorem pipeline_ok_elim {t : Table} {out : PipelineOutput}
    (h : pipeline t = .ok out) :
    missingColumn (hdrN t) = none ∧
    out.locations = (t.rows.filter (rowValid (hdrN t))).map (mkRecord (hdrN t)) ∧
    out.skipped = t.rows.length - (t.rows.filter (rowValid (hdrN t))).length := by
  cases hm : missingColumn (hdrN t) with
  | some c =>
    rw [pipeline, hm] at h
    exact absurd h (by simp)
  | none =>
    rw [pipeline, hm] at h
    simp only [RunResult.ok.injEq] at h
    exact ⟨rfl, by rw [← h], by rw [← h]⟩

/-- The required-column check passes iff every required column occurs in
the normalized header. -/
theorem missingColumn_eq_none_iff (hdr : List String) :
    missingColumn hdr = none ↔ ∀ c ∈ REQUIRED_COLUMNS, c ∈ hdr := by
  unfold missingColumn
  rw [List.find?_eq_none]
  constructor
  · intro h c hc
    have := h c hc
    simpa [List.contains, List.elem_iff] using this
  · intro h c hc
    simpa [List.contains, List.elem_iff] using h c hc

/-- Splitting a list by a predicate preserves its length. -/
theorem length_filter_add_length_filter_not {α : Type} (p : α → Bool) (l : List α) :
    (l.filter p).length + (l.filter (fun a => !(p a))).length = l.length := by
  induction l with
  | nil => rfl
  | cons a l ih =>
    cases h : p a <;> simp [List.filter_cons, h, ← ih] <;> omega

/-- The keys of a projected record are exactly the required columns, in
their fixed order. -/
theorem mkRecord_keys (hdr : List String) (row : List String) :
    (mkRecord hdr row).map Prod.fst = REQUIRED_COLUMNS := by
  rw [mkRecord, List.map_map]
  exact List.map_id REQUIRED_COLUMNS

/-- Every projected record carries a numeric latitude field. -/
theorem mkRecord_latitude (hdr : List String) (row : List String) :
    ("latitude", Field.num ((parseNum (cellAt hdr row "latitude")).getD ⟨0, 0⟩)) ∈
      mkRecord hdr row := by
  refine List.mem_map.mpr ⟨"latitude", by decide, ?_⟩
  rw [if_pos (Or.inl rfl)]

/-- Every projected record carries a numeric longitude field. -/
theorem mkRecord_longitude (hdr : List String) (row : List String) :
    ("longitude", Field.num ((parseNum (cellAt hdr row "longitude")).getD ⟨0, 0⟩)) ∈
      mkRecord hdr row := by
  refine List.mem_map.mpr ⟨"longitude", by decide, ?_⟩
  rw [if_pos (Or.inr rfl)]

/-- Every projected record carries the normalized category of its row. -/
theorem mkRecord_category (hdr : List String) (row : List String) :
    ("category", Field.str (normCategory (cellAt hdr row "category"))) ∈
      mkRecord hdr row := by
  refine List.mem_map.mpr ⟨"category", by decide, ?_⟩
  rw [if_neg (by decide), if_pos rfl]

end SSP

namespace SSP

/-- C1: Schema fail-fast — for every input table whose normalized header
(trimmed, lower-cased) contains all 15 required column names, the pipeline
produces output; for every table missing a required column after that
normalization, the run fails fatally with an error identifying a missing
column, and no output is produced. -/
theorem C1_schema_fail_fast (t : Table) (_hnd : (hdrN t).Nodup) :
    ((∀ c ∈ REQUIRED_COLUMNS, c ∈ hdrN t) → ∃ out, pipeline t = .ok out) ∧
    ((∃ c ∈ REQUIRED_COLUMNS, c ∉ hdrN t) →
      ∃ c, c ∈ REQUIRED_COLUMNS ∧ c ∉ hdrN t ∧
        pipeline t = .fatal ("Missing required column: " ++ c)) := by
  constructor
  · intro h
    have hm : missingColumn (hdrN t) = none := (missingColumn_eq_none_iff _).mpr h
    exact ⟨_, by rw [pipeline, hm]⟩
  · rintro ⟨c0, hc0, hn0⟩
    cases hm : missingColumn (hdrN t) with
    | none =>
      exact absurd ((missingColumn_eq_none_iff _).mp hm c0 hc0) hn0
    | some c =>
      have hm' : REQUIRED_COLUMNS.find? (fun c => !((hdrN t).contains c)) = some c := hm
      refine ⟨c, List.mem_of_find?_eq_some hm', ?_, by rw [pipeline, hm]⟩
      have hp := List.find?_some hm'
      simpa [List.contains, List.elem_iff] using hp

/-- Witness for C1: the pipeline succeeds on `exGood` and fails on
`exBad`, naming `description_ml`. -/
theorem C1_schema_fail_fast_witness :
    (∃ out, pipeline exGood = .ok out) ∧
    ∃ c, c ∈ REQUIRED_COLUMNS ∧ c ∉ hdrN exBad ∧
      pipeline exBad = .fatal ("Missing required column: " ++ c) :=
  ⟨(C1_schema_fail_fast exGood (by decide)).1 (by decide),
   (C1_schema_fail_fast exBad (by decide)).2 ⟨"description_ml", by decide, by decide⟩⟩

/-- C2: Coordinate validity — every output record has numeric latitude and
longitude fields, and every output record arises from an input row whose
coordinates both parsed; a row with an unparseable coordinate contributes
no record. -/
theorem C2_coordinate_validity (t : Table) (out : PipelineOutput)
    (_hnd : (hdrN t).Nodup) (h : pipeline t = .ok out) :
    ∀ rec ∈ out.locations,
      ((∃ d, ("latitude", Field.num d) ∈ rec) ∧
       (∃ d, ("longitude", Field.num d) ∈ rec)) ∧
      ∃ row ∈ t.rows, rowValid (hdrN t) row = true ∧ rec = mkRecord (hdrN t) row := by
  obtain ⟨-, hloc, -⟩ := pipeline_ok_elim h
  intro rec hrec
  rw [hloc] at hrec
  obtain ⟨row, hrow, rfl⟩ := List.mem_map.mp hrec
  obtain ⟨hmem, hval⟩ := List.mem_filter.mp hrow
  exact ⟨⟨⟨_, mkRecord_latitude _ _⟩, ⟨_, mkRecord_longitude _ _⟩⟩, row, hmem, hval, rfl⟩

/-- Witness for C2 at the example run, on the concrete record. -/
theorem C2_coordinate_validity_witness :
    ((∃ d, ("latitude", Field.num d) ∈ exRec) ∧
     (∃ d, ("longitude", Field.num d) ∈ exRec)) ∧
    ∃ row ∈ exGood.rows, rowValid (hdrN exGood) row = true ∧
      exRec = mkRecord (hdrN exGood) row :=
  C2_coordinate_validity exGood exGoodOut (by decide) pipeline_exGood exRec (by decide)

/-- C3: Row-drop accounting — the output length is the number of input
rows minus the number of rows with unparseable coordinates, and the
reported skipped count equals that difference exactly. -/
theorem C3_row_drop_accounting (t : Table) (out : PipelineOutput)
    (_hnd : (hdrN t).Nodup) (h : pipeline t = .ok out) :
    out.locations.length = t.rows.length - invalidRowCount t ∧
    out.skipped = t.rows.length - out.locations.length ∧
    out.skipped = invalidRowCount t := by
  obtain ⟨-, hloc, hsk⟩ := pipeline_ok_elim h
  have hsplit := length_filter_add_length_filter_not (rowValid (hdrN t)) t.rows
  have hlen : out.locations.length = (t.rows.filter (rowValid (hdrN t))).length := by
    rw [hloc, List.length_map]
  unfold invalidRowCount
  omega

/-- Witness for C3 at the example run. -/
theorem C3_row_drop_accounting_witness :
    exGoodOut.locations.length = exGood.rows.length - invalidRowCount exGood ∧
    exGoodOut.skipped = exGood.rows.length - exGoodOut.locations.length ∧
    exGoodOut.skipped = invalidRowCount exGood :=
  C3_row_drop_accounting exGood exGoodOut (by decide) pipeline_exGood

/-- C4: Projection exactness — every output record carries exactly the 15
required columns as its keys, in the fixed required order, whatever extra
columns the source table had. -/
theorem C4_projection_exactness (t : Table) (out : PipelineOutput)
    (_hnd : (hdrN t).Nodup) (h : pipeline t = .ok out) :
    ∀ rec ∈ out.locations, rec.map Prod.fst = REQUIRED_COLUMNS := by
  obtain ⟨-, hloc, -⟩ := pipeline_ok_elim h
  intro rec hrec
  rw [hloc] at hrec
  obtain ⟨row, -, rfl⟩ := List.mem_map.mp hrec
  exact mkRecord_keys _ _

/-- Witness for C4 at the example run, on the concrete record. -/
theorem C4_projection_exactness_witness :
    exRec.map Prod.fst = REQUIRED_COLUMNS :=
  C4_projection_exactness exGood exGoodOut (by decide) pipeline_exGood exRec (by decide)

/-- C5: Order preservation — the output is the projection of the source
row sequence restricted to the rows surviving coordinate filtering, and
that restriction is a sublist of the source rows (original order). -/
theorem C5_order_preservation (t : Table) (out : PipelineOutput)
    (_hnd : (hdrN t).Nodup) (h : pipeline t = .ok out) :
    out.locations = (t.rows.filter (rowValid (hdrN t))).map (mkRecord (hdrN t)) ∧
    List.Sublist (t.rows.filter (rowValid (hdrN t))) t.rows := by
  obtain ⟨-, hloc, -⟩ := pipeline_ok_elim h
  exact ⟨hloc, List.filter_sublist t.rows⟩

/-- Witness for C5 at the example run. -/
theorem C5_order_preservation_witness :
    exGoodOut.locations =
      (exGood.rows.filter (rowValid (hdrN exGood))).map (mkRecord (hdrN exGood)) ∧
    List.Sublist (exGood.rows.filter (rowValid (hdrN exGood))) exGood.rows :=
  C5_order_preservation exGood exGoodOut (by decide) pipeline_exGood

/-- C9: Filtering depends only on coordinates — any row of a table that
passed the column check whose latitude and longitude both parse appears in
the output, whatever its other fields hold. -/
theorem C9_filtering_only_coordinates (t : Table) (out : PipelineOutput)
    (_hnd : (hdrN t).Nodup) (h : pipeline t = .ok out) :
    ∀ row ∈ t.rows,
      (parseNum (cellAt (hdrN t) row "latitude")).isSome = true →
      (parseNum (cellAt (hdrN t) row "longitude")).isSome = true →
      mkRecord (hdrN t) row ∈ out.locations := by
  obtain ⟨-, hloc, -⟩ := pipeline_ok_elim h
  intro row hrow hlat hlong
  rw [hloc]
  refine List.mem_map_of_mem _ (List.mem_filter.mpr ⟨hrow, ?_⟩)
  unfold rowValid
  rw [hlat, hlong]
  rfl

/-- Witness for C9 at the example run, on the concrete valid row. -/
theorem C9_filtering_only_coordinates_witness :
    mkRecord (hdrN exGood) exRow1 ∈ exGoodOut.locations :=
  C9_filtering_only_coordinates exGood exGoodOut (by decide) pipeline_exGood exRow1
    (by decide) (by decide) (by decide)

/-- C10: Conditional diagnostic — the skipped-rows message is emitted iff
at least one row was dropped for invalid coordinates. -/
theorem C10_conditional_diagnostic (t : Table) (out : PipelineOutput)
    (_hnd : (hdrN t).Nodup) (h : pipeline t = .ok out) :
    skippedMessages out ≠ [] ↔ 0 < invalidRowCount t := by
  obtain ⟨-, hloc, hsk⟩ := pipeline_ok_elim h
  have hsplit := length_filter_add_length_filter_not (rowValid (hdrN t)) t.rows
  have hlen : out.locations.length = (t.rows.filter (rowValid (hdrN t))).length := by
    rw [hloc, List.length_map]
  have hs : out.skipped = invalidRowCount t := by
    unfold invalidRowCount
    omega
  unfold skippedMessages
  rw [hs]
  by_cases h0 : invalidRowCount t = 0
  · simp [h0]
  · simp [h0, Nat.pos_of_ne_zero h0]

/-- Witness for C10 at the example run. -/
theorem C10_conditional_diagnostic_witness :
    skippedMessages exGoodOut ≠ [] ↔ 0 < invalidRowCount exGood :=
  C10_conditional_diagnostic exGood exGoodOut (by decide) pipeline_exGood

end SSP

namespace SSP

/-- The element exposed by `dropWhile` fails the predicate. -/
theorem dropWhile_head_false {α : Type} (p : α → Bool) (l : List α) (a : α) (as : List α)
    (h : l.dropWhile p = a :: as) : p a = false := by
  induction l with
  | nil => simp at h
  | cons x xs ih =>
    by_cases hx : p x
    · rw [List.dropWhile_cons_of_pos hx] at h
      exact ih h
    · rw [List.dropWhile_cons_of_neg hx] at h
      injection h with h1 h2
      rw [← h1]
      simpa using hx

/-- Dropping from the right end cannot expose a new droppable head. -/
theorem dropWhile_rdropWhile_dropWhile {α : Type} (p : α → Bool) (l : List α) :
    ((l.dropWhile p).rdropWhile p).dropWhile p = (l.dropWhile p).rdropWhile p := by
  rcases hm : (l.dropWhile p).rdropWhile p with _ | ⟨c, cs⟩
  · rfl
  · obtain ⟨tl, htl⟩ := List.rdropWhile_prefix p (l.dropWhile p)
    rw [hm] at htl
    have hc : p c = false :=
      dropWhile_head_false p l c (cs ++ tl) (by rw [← htl]; rfl)
    rw [List.dropWhile_cons_of_neg (by simp [hc])]

/-- Stripping is idempotent. -/
theorem stripList_idem (l : List Char) : stripList (stripList l) = stripList l := by
  unfold stripList
  rw [dropWhile_rdropWhile_dropWhile, List.rdropWhile_idempotent]

/-- Upper-casing does not create or destroy whitespace. -/
theorem isSpace_upChar (c : Char) : isSpace (upChar c) = isSpace c := by
  unfold upChar
  split <;> rfl

/-- Upper-casing fixes a character or yields an upper-case letter. -/
theorem upChar_cases (c : Char) :
    upChar c = c ∨ upChar c ∈ ['A', 'B', 'C', 'D', 'E', 'F', 'G', 'H', 'I', 'J', 'K', 'L',
      'M', 'N', 'O', 'P', 'Q', 'R', 'S', 'T', 'U', 'V', 'W', 'X', 'Y', 'Z'] := by
  unfold upChar
  split <;> first | (left; rfl) | (right; decide)

/-- Upper-case letters are fixed by upper-casing. -/
theorem upChar_of_upper (c : Char)
    (h : c ∈ ['A', 'B', 'C', 'D', 'E', 'F', 'G', 'H', 'I', 'J', 'K', 'L',
      'M', 'N', 'O', 'P', 'Q', 'R', 'S', 'T', 'U', 'V', 'W', 'X', 'Y', 'Z']) :
    upChar c = c := by
  fin_cases h <;> rfl

/-- Upper-casing a character is idempotent. -/
theorem upChar_upChar (c : Char) : upChar (upChar c) = upChar c := by
  rcases upChar_cases c with h | h
  · rw [h, h]
  · rw [upChar_of_upper _ h]

/-- Stripping commutes with upper-casing. -/
theorem stripList_map_upChar (l : List Char) :
    stripList (l.map upChar) = (stripList l).map upChar := by
  have hp : (isSpace ∘ upChar) = isSpace := funext isSpace_upChar
  unfold stripList List.rdropWhile
  rw [List.dropWhile_map, hp, ← List.map_reverse, List.dropWhile_map, hp, ← List.map_reverse]

/-- The character-list form of category normalization is idempotent. -/
theorem normList_idem (l : List Char) :
    (stripList ((stripList l).map upChar)).map upChar = (stripList l).map upChar := by
  have hcomp : upChar ∘ upChar = upChar := funext upChar_upChar
  rw [stripList_map_upChar, stripList_idem, List.map_map, hcomp]

/-- C8: Category normalization idempotence — applying trim-then-uppercase
twice yields the same string as applying it once. -/
theorem C8_category_normalization_idempotent (s : String) :
    normCategory (normCategory s) = normCategory s := by
  unfold normCategory pyUpper pyStrip
  congr 1
  exact normList_idem s.data

end SSP

namespace SSP

/-- C6 fails as stated: on the concrete table `exGood` the output record
has fields (latitude and longitude) whose values are JSON numbers, not
strings, so not every output field value is a string. -/
theorem C6_null_elimination_counterexample :
    pipeline exGood = .ok exGoodOut ∧
    ¬ (∀ rec ∈ exGoodOut.locations, ∀ p ∈ rec, (p.2).isStr = true) := by
  decide

/-- C6 (amended): no output field is a null/absent marker — the latitude
and longitude fields hold numbers, every other field holds a string
(possibly empty) — and a blank non-coordinate source cell becomes the
empty string in the projected record. -/
theorem C6_null_elimination (t : Table) (out : PipelineOutput)
    (_hnd : (hdrN t).Nodup) (h : pipeline t = .ok out) :
    (∀ rec ∈ out.locations, ∀ p ∈ rec,
      ((p.1 = "latitude" ∨ p.1 = "longitude") → ∃ d, p.2 = Field.num d) ∧
      (¬(p.1 = "latitude" ∨ p.1 = "longitude") → ∃ s, p.2 = Field.str s)) ∧
    (∀ hdr row c, c ∈ REQUIRED_COLUMNS → ¬(c = "latitude" ∨ c = "longitude") →
      cellAt hdr row c = "" → (c, Field.str "") ∈ mkRecord hdr row) := by
  constructor
  · obtain ⟨-, hloc, -⟩ := pipeline_ok_elim h
    intro rec hrec p hp
    rw [hloc] at hrec
    obtain ⟨row, hrow, rfl⟩ := List.mem_map.mp hrec
    obtain ⟨c, hc, rfl⟩ := List.mem_map.mp hp
    dsimp only
    constructor
    · intro hcoord
      rw [if_pos hcoord]
      exact ⟨_, rfl⟩
    · intro hnc
      rw [if_neg hnc]
      by_cases hcat : c = "category"
      · rw [if_pos hcat]
        exact ⟨_, rfl⟩
      · rw [if_neg hcat]
        exact ⟨_, rfl⟩
  · intro hdr row c hc hnc hcell
    refine List.mem_map.mpr ⟨c, hc, ?_⟩
    rw [if_neg hnc]
    by_cases hcat : c = "category"
    · subst hcat
      rw [if_pos rfl, hcell]
      decide
    · rw [if_neg hcat, hcell]

/-- Witness for the amended C6 at the example run. -/
theorem C6_null_elimination_witness :
    (∀ rec ∈ exGoodOut.locations, ∀ p ∈ rec,
      ((p.1 = "latitude" ∨ p.1 = "longitude") → ∃ d, p.2 = Field.num d) ∧
      (¬(p.1 = "latitude" ∨ p.1 = "longitude") → ∃ s, p.2 = Field.str s)) ∧
    (∀ hdr row c, c ∈ REQUIRED_COLUMNS → ¬(c = "latitude" ∨ c = "longitude") →
      cellAt hdr row c = "" → (c, Field.str "") ∈ mkRecord hdr row) :=
  C6_null_elimination exGood exGoodOut (by decide) pipeline_exGood

/-- C7: Category normalization — every output record is the projection of
some source row, and its category field is exactly the source category
cell stripped and upper-cased, with no further transformation (sentinel
values included). -/
theorem C7_category_normalization (t : Table) (out : PipelineOutput)
    (_hnd : (hdrN t).Nodup) (h : pipeline t = .ok out) :
    ∀ rec ∈ out.locations, ∃ row ∈ t.rows,
      rec = mkRecord (hdrN t) row ∧
      ("category", Field.str (normCategory (cellAt (hdrN t) row "category"))) ∈ rec := by
  obtain ⟨-, hloc, -⟩ := pipeline_ok_elim h
  intro rec hrec
  rw [hloc] at hrec
  obtain ⟨row, hrow, rfl⟩ := List.mem_map.mp hrec
  exact ⟨row, (List.mem_filter.mp hrow).1, rfl, mkRecord_category _ _⟩

/-- Witness for C7 at the example run, on the concrete record. -/
theorem C7_category_normalization_witness :
    ∃ row ∈ exGood.rows,
      exRec = mkRecord (hdrN exGood) row ∧
      ("category", Field.str (normCategory (cellAt (hdrN exGood) row "category"))) ∈ exRec :=
  C7_category_normalization exGood exGoodOut (by decide) pipeline_exGood exRec (by decide)

end SSP
